import Mathlib

/-
Verification of the Peer Provisioning & Subscription Lifecycle Engine of the
wireguard-telegram-bot repository, as a shallow embedding in Lean 4.

Modelling conventions, used uniformly below:
  * Go `time.Time` instants are modelled as `Int` (seconds).  `t.AddDate(0,0,n)`
    is modelled as `t + n * day` with `day = 86400`; the calendar-day vs
    86400-second distinction is irrelevant to every property proved here.
  * `a.After(b)` is the strict comparison `b < a`, `a.Before(b)` is `a < b`,
    exactly as in Go's time package.
  * Nullable columns / Go pointers (`*time.Time`) are `Option Int`.
  * IPv4 addresses are modelled by their 32-bit integer encoding (a `Nat`
    below `2^32`); their dotted string form (what the `assigned_ip` TEXT
    column stores) is produced by `ipToString` and read back by `parseIP`.
  * The SQLite tables are modelled as Lean lists of records; a SQL UPDATE is a
    `List.map`, an INSERT is an append, a filtering SELECT is `List.filter`.
-/

namespace WgBot

/-- Seconds in one day; `AddDate(0, 0, n)` steps are modelled as `n * day`. -/
def day : Int := 86400

/-- Go `a.After(b)`: strictly later. -/
def timeAfter (a b : Int) : Bool := decide (b < a)

/-- Go `a.Before(b)`: strictly earlier. -/
def timeBefore (a b : Int) : Bool := decide (a < b)

/-- Subscription status enum from internal/storage/models.go. -/
inductive SubscriptionStatus where
  | active
  | expiring
  | paused
  | expired
deriving DecidableEq

/-- Subscription row (internal/storage/models.go `Subscription`). -/
structure Subscription where
  id : Int
  userID : Int
  durationDays : Int
  deviceLimit : Int
  amount : Int
  status : SubscriptionStatus
  startsAt : Int
  endsAt : Int
  gracePeriodEndsAt : Option Int
  createdAt : Int
deriving DecidableEq

/-- Device row (internal/storage/models.go `Device`).  `assignedIP` is the
dotted string stored in the `assigned_ip` TEXT column. -/
structure Device where
  id : Int
  userID : Int
  subscriptionID : Int
  deviceName : String
  peerPublicKey : String
  assignedIP : String
  createdAt : Int
  revokedAt : Option Int
deriving DecidableEq

/-- Repository.UpdateSubscriptionStatus (repository.go lines 391-400):
`UPDATE subscriptions SET status = ? WHERE id = ?` writes the status column
and nothing else. -/
def updateSubscriptionStatus (sub : Subscription) (newStatus : SubscriptionStatus) :
    Subscription :=
  { sub with status := newStatus }

/-- Go test `sub.GracePeriodEndsAt != nil && now.After(*sub.GracePeriodEndsAt)`. -/
def gracePassed (now : Int) (gpe : Option Int) : Bool :=
  match gpe with
  | some g => timeAfter now g
  | none => false

/-- Per-subscription body of Service.updateSubscriptionStatuses
(internal/scheduler/scheduler.go lines 96-119): the if/else-if chain choosing
at most one new status, then `UpdateSubscriptionStatus` persisting only the
status column. -/
def sweepSubscription (now : Int) (sub : Subscription) : Subscription :=
  if timeAfter now (sub.endsAt - 3 * day) && timeBefore now sub.endsAt
      && (sub.status == SubscriptionStatus.active) then
    updateSubscriptionStatus sub SubscriptionStatus.expiring
  else if timeAfter now sub.endsAt && (sub.status == SubscriptionStatus.expiring) then
    updateSubscriptionStatus sub SubscriptionStatus.paused
  else if gracePassed now sub.gracePeriodEndsAt
      && (sub.status == SubscriptionStatus.paused) then
    updateSubscriptionStatus sub SubscriptionStatus.expired
  else
    sub

/-- True exactly for the statuses the live-subscription queries select:
`status IN (active, expiring, paused)` (repository.go lines 375, 405). -/
def isLiveStatus (s : SubscriptionStatus) : Bool :=
  s == SubscriptionStatus.active || s == SubscriptionStatus.expiring
    || s == SubscriptionStatus.paused

/-- Whole status-transition sweep (scheduler.go lines 90-122):
GetSubscriptionsNeedingUpdate restricts to live statuses, and each fetched
subscription is rewritten by `sweepSubscription`; rows in non-live statuses
are untouched. -/
def updateSubscriptionStatuses (now : Int) (subs : List Subscription) :
    List Subscription :=
  subs.map (fun sub => if isLiveStatus sub.status then sweepSubscription now sub else sub)

/-- Subscription record created by Service.AdminApprovePayment when the user has
no live subscription (internal/billing/comment.go lines 240-258): status Active,
`EndsAt = now + durationDays`, `GracePeriodEndsAt = endsAt + 3 days`, set at
creation time.  The row id is assigned by the database and irrelevant here. -/
def newSubscriptionOnApproval (userID durationDays deviceLimit amount : Int)
    (now : Int) : Subscription :=
  let endsAt := now + durationDays * day
  let gracePeriodEndsAt := endsAt + 3 * day
  { id := 0
    userID := userID
    durationDays := durationDays
    deviceLimit := deviceLimit
    amount := amount
    status := SubscriptionStatus.active
    startsAt := now
    endsAt := endsAt
    gracePeriodEndsAt := some gracePeriodEndsAt
    createdAt := now }

/-- Repository.ExtendSubscription (repository.go lines 429-451): adds the paid
duration to the current `ends_at`, recomputes `grace_period_ends_at` as the new
end plus 3 days, and resets status to Active. -/
def extendSubscription (sub : Subscription) (durationDays amount : Int) :
    Subscription :=
  let newEndsAt := sub.endsAt + durationDays * day
  { sub with
    durationDays := sub.durationDays + durationDays
    amount := sub.amount + amount
    endsAt := newEndsAt
    gracePeriodEndsAt := some (newEndsAt + 3 * day)
    status := SubscriptionStatus.active }

/-- WHERE clause of Repository.GetExpiredDevicesToCleanup (repository.go lines
537-563): the device is unrevoked and joins a subscription with status Expired
whose non-null `grace_period_ends_at` is strictly before the cutoff. -/
def deviceNeedsCleanup (subs : List Subscription) (before : Int) (d : Device) :
    Bool :=
  (d.revokedAt == none) && subs.any (fun s =>
    s.id == d.subscriptionID && (s.status == SubscriptionStatus.expired) &&
      (match s.gracePeriodEndsAt with
       | some g => decide (g < before)
       | none => false))

/-- Repository.RevokeDevice (repository.go lines 526-535): ledger-only update
setting `revoked_at`; no other column changes and no Provisioner call. -/
def revokeDevice (now : Int) (d : Device) : Device :=
  { d with revokedAt := some now }

/-- Effect of Service.revokeExpiredDevices (scheduler.go lines 183-203) on one
device row: rows selected by GetExpiredDevicesToCleanup with cutoff
`now - 30 days` get `revoked_at` set; every other row is untouched. -/
def cleanupDevice (now : Int) (subs : List Subscription) (d : Device) : Device :=
  if deviceNeedsCleanup subs (now - 30 * day) d then revokeDevice now d else d

/-- Whole device-cleanup pass over the devices table. -/
def revokeExpiredDevices (now : Int) (subs : List Subscription)
    (devices : List Device) : List Device :=
  devices.map (cleanupDevice now subs)

/-- LocalProvisioner.nextIP (internal/provisioning/local.go lines 437-446) over
the 32-bit integer encoding of the address: the Go code packs the four octets
into a 64-bit `uint`, adds `inc` with 64-bit wraparound, and re-extracts the
four low-order octet fields with explicit masks. -/
def nextIP (ip : Nat) (inc : Nat) : Nat :=
  ((ip + inc) % 2 ^ 64) / 2 ^ 24 % 256 * 2 ^ 24
    + ((ip + inc) % 2 ^ 64) / 2 ^ 16 % 256 * 2 ^ 16
    + ((ip + inc) % 2 ^ 64) / 2 ^ 8 % 256 * 2 ^ 8
    + ((ip + inc) % 2 ^ 64) % 256

/-- Integer encoding of a dotted address `a.b.c.d`. -/
def ipOfOctets (a b c d : Nat) : Nat :=
  a * 2 ^ 24 + b * 2 ^ 16 + c * 2 ^ 8 + d

/-- Dotted-decimal rendering of a 32-bit address, as produced by Go
`net.IP.String()` for the IPv4 addresses this repository stores. -/
def ipToString (ip : Nat) : String :=
  Nat.repr (ip / 2 ^ 24 % 256) ++ "." ++ Nat.repr (ip / 2 ^ 16 % 256) ++ "."
    ++ Nat.repr (ip / 2 ^ 8 % 256) ++ "." ++ Nat.repr (ip % 256)

/-- Splits a character list at every dot, keeping empty fields, mirroring the
field structure Go `net.ParseIP` walks through. -/
def splitDots : List Char → List (List Char)
  | [] => [[]]
  | c :: rest =>
    if c = '.' then [] :: splitDots rest
    else
      match splitDots rest with
      | [] => [[c]]
      | f :: fs => (c :: f) :: fs

/-- Accumulating decimal reader over characters; fails on a non-digit. -/
def digitsVal : List Char → Nat → Option Nat
  | [], acc => some acc
  | c :: rest, acc =>
    if c.isDigit then digitsVal rest (acc * 10 + (c.toNat - 48))
    else none

/-- One dotted-decimal field as accepted by Go `net.ParseIP`: decimal digits
only, value below 256, no leading zero. -/
def parseOctet (cs : List Char) : Option Nat :=
  match cs with
  | [] => none
  | [c] =>
    if c.isDigit then some (c.toNat - 48) else none
  | c :: _ :: _ =>
    if c = '0' then none
    else
      match digitsVal cs 0 with
      | some n => if n < 256 then some n else none
      | none => none

/-- Go `net.ParseIP` restricted to the IPv4 dotted-decimal form, the only form
this repository ever writes into `assigned_ip`; other syntaxes are treated as
unparseable. -/
def parseIP (s : String) : Option Nat :=
  match (splitDots s.data).map parseOctet with
  | [some a, some b, some c, some d] => some (ipOfOctets a b c d)
  | _ => none

/-- Byte-order strict comparison on character lists: the order SQLite's BINARY
collation applies to TEXT values (for these strings, UTF-8 byte order and
code-point order coincide). -/
def strLtb : List Char → List Char → Bool
  | [], [] => false
  | [], _ :: _ => true
  | _ :: _, [] => false
  | a :: as, b :: bs =>
    if a.toNat < b.toNat then true
    else if b.toNat < a.toNat then false
    else strLtb as bs

/-- SQLite BINARY-collation strict order on TEXT values. -/
def sqliteLt (a b : String) : Bool := strLtb a.data b.data

/-- Greatest string of a list under SQLite BINARY collation (the value
`ORDER BY <text column> DESC LIMIT 1` returns), or none for the empty list. -/
def sqlMaxText (l : List String) : Option String :=
  l.foldl
    (fun acc s =>
      match acc with
      | none => some s
      | some m => if sqliteLt m s then some s else some m)
    none

/-- Result of the SQL query in getNextIPNetAtomic (local.go line 303):
`SELECT assigned_ip FROM devices WHERE revoked_at IS NULL ORDER BY assigned_ip
DESC LIMIT 1`.  `assigned_ip` is a TEXT column (migrations.go line 65), so the
ordering is SQLite BINARY-collation string order; the query returns the
greatest string among non-revoked rows, or no row. -/
def queryLatestAssignedIP (devices : List Device) : Option String :=
  (devices.filter (fun d => d.revokedAt == none)).foldl
    (fun acc d =>
      match acc with
      | none => some d.assignedIP
      | some m => if sqliteLt m d.assignedIP then some d.assignedIP else some m)
    none

/-- LocalProvisioner.getLatestUsedIP (local.go lines 388-412): starting from the
interface base address, keep every configured peer allowed-address that
compares greater-or-equal (`bytes.Compare`, which on two 4-byte IPv4 slices is
the numeric order used here). -/
def getLatestUsedIP (peers : List Nat) (base : Nat) : Nat :=
  peers.foldl (fun lastIP ip => if lastIP ≤ ip then ip else lastIP) base

/-- IP-with-mask pair as returned by getNextIPNetAtomic; the mask octets model
`net.IPv4Mask(255, 255, 255, 255)`. -/
structure IPNetM where
  ip : Nat
  mask : Nat × Nat × Nat × Nat
deriving DecidableEq

/-- LocalProvisioner.getNextIPNetAtomic (local.go lines 299-337) as a function
of the transactional device view, the live-interface peer addresses, and the
interface base address.  Branches, exactly as in the source: no row from the
query means the interface base address (`getDeviceAddress`); a row whose string
does not parse falls back to the live peer scan (`getLatestUsedIP`); otherwise
the parsed stored string is used.  The source's remaining path to the peer scan
— the query failing with a real database error (not ErrNoRows) — has no
counterpart in this pure model.  The chosen address is incremented by one and
paired with a /32 mask. -/
def getNextIPNetAtomic (devices : List Device) (peers : List Nat) (base : Nat) :
    IPNetM :=
  let lastIP : Nat :=
    match queryLatestAssignedIP devices with
    | none => base
    | some s =>
      match parseIP s with
      | some ip => ip
      | none => getLatestUsedIP peers base
  { ip := nextIP lastIP 1, mask := (255, 255, 255, 255) }

/-- Modelled from the spec, for comparison with `getNextIPNetAtomic` (claim C1):
find the numerically greatest assigned address among non-revoked Devices; if
none exists, fall back to scanning currently configured live-interface peer
addresses; if still none, fall back to the interface base address; increment by
one and pair with a full host mask. -/
def specNextIPNet (devices : List Device) (peers : List Nat) (base : Nat) :
    IPNetM :=
  let assigned : List Nat :=
    (devices.filter (fun d => d.revokedAt == none)).filterMap
      (fun d => parseIP d.assignedIP)
  let lastIP : Nat :=
    match assigned.max? with
    | some m => m
    | none =>
      match peers.max? with
      | some m => m
      | none => base
  { ip := nextIP lastIP 1, mask := (255, 255, 255, 255) }

/-- Device row inserted by LocalProvisioner.CreateDeviceWithNewKeys
(local.go lines 147-161); `revoked_at` starts NULL. -/
def mkInsertedDevice (userID subID : Int) (name pubKey ipStr : String)
    (now : Int) : Device :=
  { id := 0
    userID := userID
    subscriptionID := subID
    deviceName := name
    peerPublicKey := pubKey
    assignedIP := ipStr
    createdAt := now
    revokedAt := none }

/-- One serialized CreateDeviceWithNewKeys allocation round against the device
ledger (local.go lines 118-169): compute the next address inside the
transaction and insert the device row carrying its dotted string.  `key` stands
for the fresh public key the call generates (distinct per call).  The live
interface has no configured peers in the empty-pool scenario of claim C4. -/
def allocStep (base : Nat) (now : Int) (key : String) (devices : List Device) :
    List Device :=
  let ipn := getNextIPNetAtomic devices [] base
  devices ++ [mkInsertedDevice 1 1 "dev" key (ipToString ipn.ip) now]

/-- N serialized allocation rounds starting from an empty ledger, round `n`
using the fresh key `key<n>`. -/
def allocRun (base : Nat) (now : Int) : Nat → List Device
  | 0 => []
  | n + 1 => allocStep base now ("key" ++ Nat.repr n) (allocRun base now n)

/-- Repository.GetDeviceByPeerPublicKey (repository.go lines 495-512):
`WHERE peer_public_key = ?` — note: revoked rows included. -/
def getDeviceByPeerPublicKey (devices : List Device) (k : String) : Option Device :=
  devices.find? (fun d => d.peerPublicKey == k)

/-- Repository.CountActiveDevicesBySubscription (repository.go lines 514-524):
count of rows with the subscription id and NULL `revoked_at`. -/
def countActiveDevicesBySubscription (devices : List Device) (subID : Int) : Int :=
  ((devices.filter (fun d =>
    d.subscriptionID == subID && d.revokedAt == none)).length : Int)

/-- Repository.GetActiveSubscriptionByUserID (repository.go lines 371-389):
`WHERE user_id = ? AND status IN (active, expiring, paused) ORDER BY created_at
DESC LIMIT 1`.  Among rows tied on `created_at` SQLite returns an unspecified
one; the model keeps the first encountered. -/
def getActiveSubscriptionByUserID (subs : List Subscription) (userID : Int) :
    Option Subscription :=
  (subs.filter (fun s => s.userID == userID && isLiveStatus s.status)).foldl
    (fun acc s =>
      match acc with
      | none => some s
      | some m => if m.createdAt < s.createdAt then some s else some m)
    none

/-- Result record of the access gate (part_002 `CheckResult`). -/
structure CheckResult where
  canProvision : Bool
  reason : String
deriving DecidableEq

/-- Denial message for a user with no live subscription (part_002 line 110). -/
def noSubscriptionMsg : String :=
  "У вас нет активной подписки. Оформите оплату через меню бота."

/-- Denial message for an expired subscription (part_002 lines 120, 127, 140). -/
def expiredMsg : String :=
  "Ваша подписка истекла. Оформите продление через меню бота."

/-- Denial message for a paused subscription (part_002 line 132): a fixed
string, carrying no remaining-grace-time value. -/
def pausedMsg : String :=
  "Ваша подписка приостановлена. Оформите продление через меню бота."

/-- Denial message for the device limit (part_002 lines 153-154), carrying the
current count and the limit as in the Go format string. -/
def deviceLimitMsg (count limit : Int) : String :=
  "Достигнут лимит устройств (" ++ Int.repr count ++ "/" ++ Int.repr limit
    ++ "). Отзовите одно из устройств или оформите продление с большим количеством устройств."

/-- Service.CanProvisionDevice (part_002 lines 100-162) over the subscriptions
and devices tables: live-subscription lookup, then the status switch, the
end-of-term check, and the device-limit check, in source order. -/
def canProvisionDevice (subs : List Subscription) (devices : List Device)
    (userID : Int) (now : Int) : CheckResult :=
  match getActiveSubscriptionByUserID subs userID with
  | none => { canProvision := false, reason := noSubscriptionMsg }
  | some subscription =>
    match subscription.status with
    | SubscriptionStatus.expired =>
      { canProvision := false, reason := expiredMsg }
    | SubscriptionStatus.paused =>
      if gracePassed now subscription.gracePeriodEndsAt then
        { canProvision := false, reason := expiredMsg }
      else
        { canProvision := false, reason := pausedMsg }
    | _ =>
      if timeAfter now subscription.endsAt then
        { canProvision := false, reason := expiredMsg }
      else
        let deviceCount := countActiveDevicesBySubscription devices subscription.id
        if subscription.deviceLimit ≤ deviceCount then
          { canProvision := false
            reason := deviceLimitMsg deviceCount subscription.deviceLimit }
        else
          { canProvision := true, reason := "" }

/-- Decoded JSON response of the remote `wg-provision create` command
(ssh.go `createResponse`); a field missing from the JSON document is left at
Go's zero value, the empty string, by `json.Unmarshal`. -/
structure CreateResponse where
  assignedIP : String
  serverPublicKey : String
  endpoint : String
  dns : String
deriving DecidableEq

/-- Typed provisioning failures; the names record the error site in the
source.  `invalidResponseMissingFields` and `invalidAssignedIP` are the
spec taxonomy's ValidationError, `duplicatePublicKey` its ConflictError. -/
inductive ProvisionError where
  | duplicatePublicKey
  | invalidResponseMissingFields
  | invalidAssignedIP
  | retrieveAfterInsertFailed
deriving DecidableEq

/-- parseAssignedIP (ssh.go lines 201-215): reject empty, strip one `/32`
suffix, reject any remaining slash, require the rest to parse as an address. -/
def parseAssignedIP (s : String) : Option String :=
  if s == "" then none
  else
    let ip := if s.endsWith "/32" then s.dropRight 3 else s
    if ip.contains '/' then none
    else if (parseIP ip).isSome then some ip else none

/-- SSHProvisioner.CreateDeviceWithNewKeys (ssh.go lines 261-336) as a function
of the device ledger, the locally generated public key, and the decoded remote
response: duplicate-key check first, then the required-fields validation
(ssh.go line 300), then parseAssignedIP, and only after all of these the
`CreateDevice` insert.  The returned pair is the post-state of the devices
table and the assigned address. -/
def sshCreateDeviceWithNewKeys (devices : List Device) (pubKey : String)
    (userID subID : Int) (name : String) (resp : CreateResponse) (now : Int) :
    Except ProvisionError (List Device × String) :=
  match getDeviceByPeerPublicKey devices pubKey with
  | some _ => Except.error ProvisionError.duplicatePublicKey
  | none =>
    if resp.assignedIP == "" || resp.serverPublicKey == "" || resp.endpoint == ""
        || resp.dns == "" then
      Except.error ProvisionError.invalidResponseMissingFields
    else
      match parseAssignedIP resp.assignedIP with
      | none => Except.error ProvisionError.invalidAssignedIP
      | some assignedIP =>
        Except.ok
          (devices ++ [mkInsertedDevice userID subID name pubKey assignedIP now],
           assignedIP)

/-- Devices table after a call that may have failed: an error leaves the
ledger as it was; success replaces it with the returned table. -/
def devicesAfter (devices : List Device)
    (r : Except ProvisionError (List Device × String)) : List Device :=
  match r with
  | Except.ok (devices2, _) => devices2
  | Except.error _ => devices

/-- LocalProvisioner.updateDevice (local.go lines 363-385): the live-interface
mutation plus `wg-quick save`; in this model its outcome is an input. -/
def updateDeviceResult (ifaceFails : Bool) : Except String Unit :=
  if ifaceFails then Except.error "failed to update server configuration"
  else Except.ok ()

/-- LocalProvisioner.CreateDeviceWithNewKeys (local.go lines 118-194) over the
device ledger: address allocation and the duplicate-key check inside the
transaction, the row insert, the commit, then the post-commit live-interface
mutation whose failure is only logged (local.go lines 178-181), and finally the
re-fetch of the inserted row by public key.  `ifaceFails` says whether the
live-interface mutation fails.  Returns the post-state of the devices table and
the assigned address string. -/
def localCreateDeviceWithNewKeys (devices : List Device) (peers : List Nat)
    (base : Nat) (pubKey : String) (userID subID : Int) (name : String)
    (ifaceFails : Bool) (now : Int) :
    Except ProvisionError (List Device × String) :=
  let ipn := getNextIPNetAtomic devices peers base
  match getDeviceByPeerPublicKey devices pubKey with
  | some _ => Except.error ProvisionError.duplicatePublicKey
  | none =>
    let devices2 :=
      devices ++ [mkInsertedDevice userID subID name pubKey (ipToString ipn.ip) now]
    -- transaction committed here; the interface-mutation error below is
    -- swallowed into a warning log (local.go lines 178-181)
    let _ifaceOutcome := updateDeviceResult ifaceFails
    match getDeviceByPeerPublicKey devices2 pubKey with
    | none => Except.error ProvisionError.retrieveAfterInsertFailed
    | some _ => Except.ok (devices2, ipToString ipn.ip)

/-- Modelled from the spec, for comparison with `sweepSubscription` (claim C2):
the claimed transition table with closed-left guard intervals — Active and
`now ∈ [endsAt − 3d, endsAt)` to Expiring; Expiring and `now ≥ endsAt` to
Paused, setting `gracePeriodEndsAt = endsAt + 3d`; Paused and
`now ≥ gracePeriodEndsAt` to Expired; otherwise unchanged. -/
def sweepClaimC2 (now : Int) (sub sub2 : Subscription) : Prop :=
  (sub.status = SubscriptionStatus.active ∧ sub.endsAt - 3 * day ≤ now
      ∧ now < sub.endsAt →
    sub2 = updateSubscriptionStatus sub SubscriptionStatus.expiring)
  ∧ (sub.status = SubscriptionStatus.expiring ∧ sub.endsAt ≤ now →
    sub2 = { sub with
      status := SubscriptionStatus.paused
      gracePeriodEndsAt := some (sub.endsAt + 3 * day) })
  ∧ (sub.status = SubscriptionStatus.paused
      ∧ (∃ g, sub.gracePeriodEndsAt = some g ∧ g ≤ now) →
    sub2 = updateSubscriptionStatus sub SubscriptionStatus.expired)

/-- Transition table the code actually implements (amended claim C2): all three
guards are strict (`time.After`/`time.Before` are strict comparisons), and the
Expiring-to-Paused transition writes only the status column, leaving
`gracePeriodEndsAt` as it was. -/
def sweepAmendedC2 (now : Int) (sub sub2 : Subscription) : Prop :=
  (sub.status = SubscriptionStatus.active ∧ sub.endsAt - 3 * day < now
      ∧ now < sub.endsAt →
    sub2 = updateSubscriptionStatus sub SubscriptionStatus.expiring)
  ∧ (sub.status = SubscriptionStatus.expiring ∧ sub.endsAt < now →
    sub2 = updateSubscriptionStatus sub SubscriptionStatus.paused)
  ∧ (sub.status = SubscriptionStatus.paused
      ∧ (∃ g, sub.gracePeriodEndsAt = some g ∧ g < now) →
    sub2 = updateSubscriptionStatus sub SubscriptionStatus.expired)
  ∧ (¬ (sub.status = SubscriptionStatus.active ∧ sub.endsAt - 3 * day < now
          ∧ now < sub.endsAt) →
     ¬ (sub.status = SubscriptionStatus.expiring ∧ sub.endsAt < now) →
     ¬ (sub.status = SubscriptionStatus.paused
          ∧ (∃ g, sub.gracePeriodEndsAt = some g ∧ g < now)) →
    sub2 = sub)

/-- Modelled from the spec, for comparison with `canProvisionDevice` (claim
C3): the claimed precedence list, with `now ≥ gracePeriodEndsAt` and
`now ≥ endsAt` guards closed at the boundary. -/
def canProvisionClaimC3 (subs : List Subscription) (devices : List Device)
    (userID : Int) (now : Int) (r : CheckResult) : Prop :=
  (getActiveSubscriptionByUserID subs userID = none →
    r = { canProvision := false, reason := noSubscriptionMsg })
  ∧ ∀ sub, getActiveSubscriptionByUserID subs userID = some sub →
    (sub.status = SubscriptionStatus.expired →
      r = { canProvision := false, reason := expiredMsg })
    ∧ (sub.status = SubscriptionStatus.paused
        ∧ (∃ g, sub.gracePeriodEndsAt = some g ∧ g ≤ now) →
      r = { canProvision := false, reason := expiredMsg })

/-- Precedence list the code actually implements (amended claim C3): the
grace-period and end-of-term guards are strict, the Paused guard needs a
non-null `gracePeriodEndsAt`, the "paused" denial is the fixed message
`pausedMsg` carrying no remaining-grace-time value, and the device-limit denial
reports the current count and the limit. -/
def canProvisionAmendedC3 (subs : List Subscription) (devices : List Device)
    (userID : Int) (now : Int) (r : CheckResult) : Prop :=
  (getActiveSubscriptionByUserID subs userID = none →
    r = { canProvision := false, reason := noSubscriptionMsg })
  ∧ ∀ sub, getActiveSubscriptionByUserID subs userID = some sub →
    (sub.status = SubscriptionStatus.expired →
      r = { canProvision := false, reason := expiredMsg })
    ∧ (sub.status = SubscriptionStatus.paused
        ∧ (∃ g, sub.gracePeriodEndsAt = some g ∧ g < now) →
      r = { canProvision := false, reason := expiredMsg })
    ∧ (sub.status = SubscriptionStatus.paused
        ∧ ¬ (∃ g, sub.gracePeriodEndsAt = some g ∧ g < now) →
      r = { canProvision := false, reason := pausedMsg })
    ∧ (sub.status ≠ SubscriptionStatus.expired
        ∧ sub.status ≠ SubscriptionStatus.paused ∧ sub.endsAt < now →
      r = { canProvision := false, reason := expiredMsg })
    ∧ (sub.status ≠ SubscriptionStatus.expired
        ∧ sub.status ≠ SubscriptionStatus.paused ∧ ¬ sub.endsAt < now
        ∧ sub.deviceLimit ≤ countActiveDevicesBySubscription devices sub.id →
      r = { canProvision := false
            reason := deviceLimitMsg (countActiveDevicesBySubscription devices sub.id)
              sub.deviceLimit })
    ∧ (sub.status ≠ SubscriptionStatus.expired
        ∧ sub.status ≠ SubscriptionStatus.paused ∧ ¬ sub.endsAt < now
        ∧ countActiveDevicesBySubscription devices sub.id < sub.deviceLimit →
      r = { canProvision := true, reason := "" })

/-- Concrete subscription used to settle claims C2 and C5: status Expiring,
ends exactly at `30 * day`, grace period recorded as `endsAt + 3 days`. -/
def c2sub : Subscription :=
  { id := 1, userID := 1, durationDays := 30, deviceLimit := 1, amount := 0
    status := SubscriptionStatus.expiring, startsAt := 0, endsAt := 30 * day
    gracePeriodEndsAt := some (33 * day), createdAt := 0 }

/-- Concrete subscription used to settle claim C8: still Expiring although its
end and even its recorded grace period are long past (a late first sweep). -/
def c8sub : Subscription :=
  { id := 1, userID := 1, durationDays := 30, deviceLimit := 1, amount := 0
    status := SubscriptionStatus.expiring, startsAt := -100 * day, endsAt := 0
    gracePeriodEndsAt := some (3 * day), createdAt := -100 * day }

/-- Base interface address 10.0.0.1 of the claim C4 scenario. -/
def c4base : Nat := ipOfOctets 10 0 0 1

/-- Non-revoked device carrying a given assigned address string (claim C1). -/
def c1dev (ip : String) : Device := mkInsertedDevice 1 1 "dev" ("key" ++ ip) ip 0

/-- Paused subscription of user 1 whose grace period ends at `g`, for the
claim C3 boundary scenario. -/
def c3subPaused (g : Int) : Subscription :=
  { id := 1, userID := 1, durationDays := 30, deviceLimit := 1, amount := 0
    status := SubscriptionStatus.paused, startsAt := 0, endsAt := g - 3 * day
    gracePeriodEndsAt := some g, createdAt := 0 }

/-- Active subscription of user 1 with a device limit of 2, for the claim C3
device-limit scenario. -/
def c3subActive : Subscription :=
  { id := 1, userID := 1, durationDays := 30, deviceLimit := 2, amount := 0
    status := SubscriptionStatus.active, startsAt := 0, endsAt := 100 * day
    gracePeriodEndsAt := some (103 * day), createdAt := 0 }

/-- Two unrevoked devices of user 1 under subscription 1, for the claim C3
device-limit scenario. -/
def c3devices : List Device :=
  [mkInsertedDevice 1 1 "a" "k1" "10.0.0.2" 0,
   mkInsertedDevice 1 1 "b" "k2" "10.0.0.3" 0]

/-- Unrevoked device owned by subscription 1, for the claim C9 scenario. -/
def c9dev : Device := mkInsertedDevice 1 1 "dev" "key" "10.0.0.2" 0

/-- Expired subscription whose grace period ended `n` days before time 0,
for the claim C9 scenario. -/
def c9subExpired (n : Int) : Subscription :=
  { id := 1, userID := 1, durationDays := 30, deviceLimit := 1, amount := 0
    status := SubscriptionStatus.expired, startsAt := -(n + 40) * day
    endsAt := -(n + 3) * day, gracePeriodEndsAt := some (-n * day)
    createdAt := -(n + 40) * day }

end WgBot

namespace WgBot

theorem updateSubscriptionStatus_status (sub : Subscription)
    (s : SubscriptionStatus) : (updateSubscriptionStatus sub s).status = s := rfl

theorem updateSubscriptionStatus_endsAt (sub : Subscription)
    (s : SubscriptionStatus) :
    (updateSubscriptionStatus sub s).endsAt = sub.endsAt := rfl

theorem updateSubscriptionStatus_gracePeriodEndsAt (sub : Subscription)
    (s : SubscriptionStatus) :
    (updateSubscriptionStatus sub s).gracePeriodEndsAt = sub.gracePeriodEndsAt :=
  rfl

attribute [simp] updateSubscriptionStatus_status updateSubscriptionStatus_endsAt
  updateSubscriptionStatus_gracePeriodEndsAt

theorem gracePassed_iff (now : Int) (o : Option Int) :
    gracePassed now o = true ↔ ∃ g, o = some g ∧ g < now := by
  cases o <;> simp [gracePassed, timeAfter]

theorem sweep_active_hit {now : Int} {sub : Subscription}
    (hs : sub.status = SubscriptionStatus.active)
    (h1 : sub.endsAt - 3 * day < now) (h2 : now < sub.endsAt) :
    sweepSubscription now sub
      = updateSubscriptionStatus sub SubscriptionStatus.expiring := by
  unfold sweepSubscription
  rw [if_pos]
  simp [timeAfter, timeBefore, hs, h1, h2]

theorem sweep_expiring_hit {now : Int} {sub : Subscription}
    (hs : sub.status = SubscriptionStatus.expiring) (h1 : sub.endsAt < now) :
    sweepSubscription now sub
      = updateSubscriptionStatus sub SubscriptionStatus.paused := by
  unfold sweepSubscription
  rw [if_neg, if_pos]
  · simp [timeAfter, hs, h1]
  · simp [hs]

theorem sweep_paused_hit {now : Int} {sub : Subscription} {g : Int}
    (hs : sub.status = SubscriptionStatus.paused)
    (hg : sub.gracePeriodEndsAt = some g) (h1 : g < now) :
    sweepSubscription now sub
      = updateSubscriptionStatus sub SubscriptionStatus.expired := by
  unfold sweepSubscription
  rw [if_neg, if_neg, if_pos]
  · simp [gracePassed, timeAfter, hs, hg, h1]
  · simp [hs]
  · simp [hs]

theorem sweep_miss {now : Int} {sub : Subscription}
    (hn1 : ¬ (sub.status = SubscriptionStatus.active
      ∧ sub.endsAt - 3 * day < now ∧ now < sub.endsAt))
    (hn2 : ¬ (sub.status = SubscriptionStatus.expiring ∧ sub.endsAt < now))
    (hn3 : ¬ (sub.status = SubscriptionStatus.paused
      ∧ ∃ g, sub.gracePeriodEndsAt = some g ∧ g < now)) :
    sweepSubscription now sub = sub := by
  unfold sweepSubscription
  split_ifs with h1 h2 h3
  · simp only [Bool.and_eq_true, timeAfter, timeBefore, decide_eq_true_eq,
      beq_iff_eq] at h1
    exact absurd ⟨h1.2, h1.1.1, h1.1.2⟩ hn1
  · simp only [Bool.and_eq_true, timeAfter, decide_eq_true_eq, beq_iff_eq] at h2
    exact absurd ⟨h2.2, h2.1⟩ hn2
  · simp only [Bool.and_eq_true, beq_iff_eq] at h3
    obtain ⟨g, hg, hlt⟩ := (gracePassed_iff _ _).mp h3.1
    exact absurd ⟨h3.2, g, hg, hlt⟩ hn3
  · rfl

/-- Claim C2, counterexample: at `now = endsAt` exactly, the claimed
`now ≥ endsAt` guard demands the Expiring-to-Paused transition (with
`gracePeriodEndsAt` written), but `time.After` is strict, so the sweep leaves
the subscription untouched. -/
theorem c2_counterexample :
    ¬ sweepClaimC2 (30 * day) c2sub (sweepSubscription (30 * day) c2sub) := by
  intro h
  have h2 := h.2.1 ⟨rfl, le_refl _⟩
  exact absurd h2 (by decide)

/-- Claim C2, amended: the sweep applies at most one transition per
subscription, all three guards strict — Active and
`now ∈ (endsAt − 3d, endsAt)` to Expiring; Expiring and `now > endsAt` to
Paused; Paused with non-null grace end and `now > gracePeriodEndsAt` to
Expired — and the Expiring-to-Paused transition writes only the status,
leaving `gracePeriodEndsAt` unchanged; in every other case the subscription is
unchanged. -/
theorem c2_amended_sweep (now : Int) (sub : Subscription) :
    sweepAmendedC2 now sub (sweepSubscription now sub) := by
  refine ⟨?_, ?_, ?_, ?_⟩
  · rintro ⟨hs, h1, h2⟩
    exact sweep_active_hit hs h1 h2
  · rintro ⟨hs, h1⟩
    exact sweep_expiring_hit hs h1
  · rintro ⟨hs, g, hg, h1⟩
    exact sweep_paused_hit hs hg h1
  · intro hn1 hn2 hn3
    exact sweep_miss hn1 hn2 hn3

/-- Witness for the amended claim C2 at a concrete input: one second past the
end, the Expiring subscription moves to Paused with its stored grace end
untouched. -/
theorem c2_amended_sweep_witness :
    sweepSubscription (30 * day + 1) c2sub
      = updateSubscriptionStatus c2sub SubscriptionStatus.paused :=
  (c2_amended_sweep (30 * day + 1) c2sub).2.1 (by decide)

/-- Claim C8, counterexample: a sweep running late (here 10 days after the
end of an Expiring subscription whose recorded grace end is 3 days after the
end) moves it to Paused, and a second sweep at the very same instant moves it
on to Expired — the second run does perform a transition. -/
theorem c8_counterexample :
    sweepSubscription (10 * day) (sweepSubscription (10 * day) c8sub)
      ≠ sweepSubscription (10 * day) c8sub := by
  decide

/-- Claim C8, amended: a second sweep at the same instant changes nothing,
except for a subscription that the first sweep moved from Expiring to Paused
while `now` already lay beyond its recorded `gracePeriodEndsAt`; that one is
moved on to Expired by the second run. -/
theorem c8_amended_idempotence (now : Int) (sub : Subscription) :
    sweepSubscription now (sweepSubscription now sub) = sweepSubscription now sub
    ∨ (sub.status = SubscriptionStatus.expiring ∧ sub.endsAt < now
        ∧ (∃ g, sub.gracePeriodEndsAt = some g ∧ g < now)
        ∧ sweepSubscription now (sweepSubscription now sub)
            = updateSubscriptionStatus sub SubscriptionStatus.expired) := by
  cases hst : sub.status with
  | active =>
    by_cases h1 : sub.endsAt - 3 * day < now ∧ now < sub.endsAt
    · rw [sweep_active_hit hst h1.1 h1.2]
      left
      exact sweep_miss (by simp)
        (by have h2 := h1.2
            simp
            omega)
        (by simp)
    · have hm := @sweep_miss now sub
        (by rintro ⟨-, ha, hb⟩; exact h1 ⟨ha, hb⟩)
        (by simp [hst]) (by simp [hst])
      rw [hm, hm]
      left
      rfl
  | expiring =>
    by_cases h1 : sub.endsAt < now
    · rw [sweep_expiring_hit hst h1]
      by_cases h2 : ∃ g, sub.gracePeriodEndsAt = some g ∧ g < now
      · obtain ⟨g, hg, hlt⟩ := h2
        right
        refine ⟨rfl, h1, ⟨g, hg, hlt⟩, ?_⟩
        rw [@sweep_paused_hit now (updateSubscriptionStatus sub SubscriptionStatus.paused) g (by simp) (by simp [hg]) hlt]
        simp [updateSubscriptionStatus]
      · left
        exact sweep_miss (by simp)
          (by simp)
          (by rintro ⟨-, g, hg, hlt⟩
              exact h2 ⟨g, hg, hlt⟩)
    · have hm := @sweep_miss now sub
        (by simp [hst]) (by rintro ⟨-, hb⟩; exact h1 hb) (by simp [hst])
      rw [hm, hm]
      left
      rfl
  | paused =>
    by_cases h2 : ∃ g, sub.gracePeriodEndsAt = some g ∧ g < now
    · obtain ⟨g, hg, hlt⟩ := h2
      rw [sweep_paused_hit hst hg hlt]
      left
      exact sweep_miss (by simp) (by simp) (by simp)
    · have hm := @sweep_miss now sub
        (by simp [hst]) (by simp [hst])
        (by rintro ⟨-, g, hg, hlt⟩; exact h2 ⟨g, hg, hlt⟩)
      rw [hm, hm]
      left
      rfl
  | expired =>
    have hm := @sweep_miss now sub
      (by simp [hst]) (by simp [hst]) (by simp [hst])
    rw [hm, hm]
    left
    rfl

/-- Claim C5, counterexample: the subscription AdminApprovePayment creates is
Active — it has never been Paused — yet its grace-period end is already
non-null at creation. -/
theorem c5_counterexample :
    (newSubscriptionOnApproval 1 30 2 10000 0).status = SubscriptionStatus.active
    ∧ (newSubscriptionOnApproval 1 30 2 10000 0).gracePeriodEndsAt ≠ none := by
  decide

/-- Claim C5, amended: `gracePeriodEndsAt` is populated with `endsAt + 3 days`
already at subscription creation, is recomputed to the new end plus 3 days on
extension, and is never written by the sweep — in particular the
Expiring-to-Paused transition does not set it. -/
theorem c5_amended_gracePeriod :
    (∀ u dd dl a now, (newSubscriptionOnApproval u dd dl a now).gracePeriodEndsAt
        = some (now + dd * day + 3 * day)
      ∧ (newSubscriptionOnApproval u dd dl a now).status
        = SubscriptionStatus.active)
    ∧ (∀ sub dd a, (extendSubscription sub dd a).gracePeriodEndsAt
        = some (sub.endsAt + dd * day + 3 * day))
    ∧ (∀ now sub, (sweepSubscription now sub).gracePeriodEndsAt
        = sub.gracePeriodEndsAt) := by
  refine ⟨fun u dd dl a now => ⟨rfl, rfl⟩, fun sub dd a => rfl, fun now sub => ?_⟩
  unfold sweepSubscription
  split_ifs <;> rfl

/-- Shared arithmetic fact behind claim C10: the source's 64-bit pack-add-unpack
computes addition modulo 2^32 on the integer encoding. -/
theorem nextIP_mod (ip inc : Nat) : nextIP ip inc = (ip + inc) % 2 ^ 32 := by
  unfold nextIP
  omega

/-- Claim C10: `nextIP` is `(ip + inc) mod 2^32` over the 32-bit integer
encoding of the dotted address, for every address and increment; in particular
incrementing 255.255.255.255 by one wraps silently to 0.0.0.0. -/
theorem c10_nextIP_wraps :
    (∀ ip inc : Nat, nextIP ip inc = (ip + inc) % 2 ^ 32)
    ∧ nextIP (ipOfOctets 255 255 255 255) 1 = ipOfOctets 0 0 0 0 := by
  refine ⟨nextIP_mod, ?_⟩
  decide

theorem gpeMatch_iff (o : Option Int) (b : Int) :
    (match o with | some g => decide (g < b) | none => false) = true
      ↔ ∃ g, o = some g ∧ g < b := by
  cases o <;> simp

theorem deviceNeedsCleanup_iff (subs : List Subscription) (before : Int)
    (d : Device) :
    deviceNeedsCleanup subs before d = true ↔
      d.revokedAt = none ∧ ∃ s ∈ subs, s.id = d.subscriptionID
        ∧ s.status = SubscriptionStatus.expired
        ∧ ∃ g, s.gracePeriodEndsAt = some g ∧ g < before := by
  unfold deviceNeedsCleanup
  simp [List.any_eq_true, gpeMatch_iff, and_assoc]

/-- Claim C9: the cleanup pass (`revokeExpiredDevices`, a per-row
`cleanupDevice` over the devices table) sets `revoked_at` — a ledger-only
revocation touching no other field and calling no Provisioner — on exactly
those unrevoked devices whose owning subscription is Expired with a
grace-period end more than 30 days before the run time, and leaves every other
row unchanged. -/
theorem c9_cleanup_exact (now : Int) (subs : List Subscription) (d : Device) :
    ((d.revokedAt = none ∧ ∃ s ∈ subs, s.id = d.subscriptionID
        ∧ s.status = SubscriptionStatus.expired
        ∧ ∃ g, s.gracePeriodEndsAt = some g ∧ 30 * day < now - g) →
      cleanupDevice now subs d = revokeDevice now d)
    ∧ ((¬ (d.revokedAt = none ∧ ∃ s ∈ subs, s.id = d.subscriptionID
        ∧ s.status = SubscriptionStatus.expired
        ∧ ∃ g, s.gracePeriodEndsAt = some g ∧ 30 * day < now - g)) →
      cleanupDevice now subs d = d)
    ∧ (∀ devices, revokeExpiredDevices now subs devices
        = devices.map (cleanupDevice now subs)) := by
  refine ⟨?_, ?_, fun devices => rfl⟩
  · rintro ⟨h1, s, hs, hid, hexp, g, hg, hgt⟩
    unfold cleanupDevice
    rw [if_pos]
    exact (deviceNeedsCleanup_iff subs (now - 30 * day) d).mpr
      ⟨h1, s, hs, hid, hexp, g, hg, by omega⟩
  · intro hn
    unfold cleanupDevice
    rw [if_neg]
    intro hb
    obtain ⟨h1, s, hs, hid, hexp, g, hg, hlt⟩ :=
      (deviceNeedsCleanup_iff subs (now - 30 * day) d).mp hb
    exact hn ⟨h1, s, hs, hid, hexp, g, hg, by omega⟩

/-- Witness for claim C9 at the spec's threshold scenario: a grace period 31
days past gets the device revoked by the pass, one 29 days past does not. -/
theorem c9_cleanup_exact_witness :
    cleanupDevice 0 [c9subExpired 31] c9dev = revokeDevice 0 c9dev
    ∧ cleanupDevice 0 [c9subExpired 29] c9dev = c9dev := by
  constructor
  · exact (c9_cleanup_exact 0 [c9subExpired 31] c9dev).1
      ⟨rfl, c9subExpired 31, by simp, rfl, rfl, -31 * day, rfl, by decide⟩
  · refine (c9_cleanup_exact 0 [c9subExpired 29] c9dev).2.1 ?_
    rintro ⟨-, s, hs, -, -, g, hg, hgt⟩
    simp only [List.mem_singleton] at hs
    subst hs
    have : g = -29 * day := by
      have := hg
      simp [c9subExpired] at this
      omega
    subst this
    revert hgt
    decide

theorem char_eq_of_toNat_eq {a b : Char} (h : a.toNat = b.toNat) : a = b :=
  Char.ext (UInt32.ext h)

theorem strLtb_irrefl : ∀ (a : List Char), strLtb a a = false := by
  intro a
  induction a with
  | nil => rfl
  | cons x xs ih => simp [strLtb, ih]

theorem strLtb_antisymm : ∀ {a b : List Char},
    strLtb a b = false → strLtb b a = false → a = b := by
  intro a
  induction a with
  | nil =>
    intro b h1 h2
    cases b with
    | nil => rfl
    | cons x xs => simp [strLtb] at h1
  | cons x xs ih =>
    intro b h1 h2
    cases b with
    | nil => simp [strLtb] at h2
    | cons y ys =>
      simp only [strLtb] at h1 h2
      by_cases hxy : x.toNat < y.toNat
      · simp [hxy] at h1
      · by_cases hyx : y.toNat < x.toNat
        · simp [hxy, hyx] at h2
        · have hx : x = y := char_eq_of_toNat_eq (by omega)
          subst hx
          simp [hxy] at h1 h2
          rw [ih h1 h2]

theorem strLtb_trans : ∀ {a b c : List Char},
    strLtb a b = true → strLtb b c = true → strLtb a c = true := by
  intro a
  induction a with
  | nil =>
    intro b c hab hbc
    cases c with
    | nil =>
      cases b with
      | nil => simpa using hab
      | cons y ys => simp [strLtb] at hbc
    | cons z zs => simp [strLtb]
  | cons x xs ih =>
    intro b c hab hbc
    cases b with
    | nil => simp [strLtb] at hab
    | cons y ys =>
      cases c with
      | nil => simp [strLtb] at hbc
      | cons z zs =>
        simp only [strLtb] at hab hbc ⊢
        by_cases hxy : x.toNat < y.toNat
        · by_cases hyz : y.toNat < z.toNat
          · have hxz : x.toNat < z.toNat := by omega
            simp [hxz]
          · by_cases hzy : z.toNat < y.toNat
            · simp [hyz, hzy] at hbc
            · have hxz : x.toNat < z.toNat := by omega
              simp [hxz]
        · by_cases hyx : y.toNat < x.toNat
          · simp [hxy, hyx] at hab
          · by_cases hyz : y.toNat < z.toNat
            · have hxz : x.toNat < z.toNat := by omega
              simp [hxz]
            · by_cases hzy : z.toNat < y.toNat
              · simp [hyz, hzy] at hbc
              · have h1 : ¬ x.toNat < z.toNat := by omega
                have h2 : ¬ z.toNat < x.toNat := by omega
                simp only [if_neg h1, if_neg h2]
                simp [hxy, hyx] at hab
                simp [hyz, hzy] at hbc
                exact ih hab hbc

theorem string_eq_of_data_eq {a b : String} (h : a.data = b.data) : a = b := by
  cases a
  cases b
  exact congrArg String.mk (by simpa using h)

theorem sqliteLt_irrefl (a : String) : sqliteLt a a = false := strLtb_irrefl a.data

theorem sqliteLt_antisymm {a b : String} (h1 : sqliteLt a b = false)
    (h2 : sqliteLt b a = false) : a = b :=
  string_eq_of_data_eq (strLtb_antisymm h1 h2)

theorem sqliteLt_trans {a b c : String} (h1 : sqliteLt a b = true)
    (h2 : sqliteLt b c = true) : sqliteLt a c = true :=
  strLtb_trans h1 h2

theorem sqliteLt_notlt_of_notlt {m m2 x : String} (hmx : sqliteLt m x = false)
    (hm2m : sqliteLt m2 m = false) : sqliteLt m2 x = false := by
  by_cases h : sqliteLt m2 x = true
  · by_cases hm : sqliteLt m m2 = true
    · exact absurd (sqliteLt_trans hm h) (by simp [hmx])
    · have heq : m = m2 := sqliteLt_antisymm (by simpa using hm) hm2m
      subst heq
      simp [hmx] at h
  · simpa using h

theorem sqlMaxText_go : ∀ (l : List String) (m : String),
    ∃ m2, l.foldl
        (fun acc s =>
          match acc with
          | none => some s
          | some m3 => if sqliteLt m3 s then some s else some m3)
        (some m) = some m2
      ∧ (m2 = m ∨ m2 ∈ l) ∧ sqliteLt m2 m = false
      ∧ ∀ t ∈ l, sqliteLt m2 t = false := by
  intro l
  induction l with
  | nil =>
    intro m
    exact ⟨m, rfl, Or.inl rfl, sqliteLt_irrefl m, by simp⟩
  | cons x xs ih =>
    intro m
    by_cases hmx : sqliteLt m x = true
    · obtain ⟨m2, heq, hmem, hgex, hall⟩ := ih x
      refine ⟨m2, ?_, ?_, ?_, ?_⟩
      · simpa [List.foldl_cons, hmx] using heq
      · right
        cases hmem with
        | inl h => simp [h]
        | inr h => simp [h]
      · by_cases h : sqliteLt m2 m = true
        · exact absurd (sqliteLt_trans h hmx) (by simp [hgex])
        · simpa using h
      · intro t ht
        cases List.mem_cons.mp ht with
        | inl h => rw [h]; exact hgex
        | inr h => exact hall t h
    · have hmx2 : sqliteLt m x = false := by simpa using hmx
      obtain ⟨m2, heq, hmem, hgem, hall⟩ := ih m
      refine ⟨m2, ?_, ?_, hgem, ?_⟩
      · simpa [List.foldl_cons, hmx2] using heq
      · cases hmem with
        | inl h => exact Or.inl h
        | inr h => exact Or.inr (List.mem_cons_of_mem x h)
      · intro t ht
        cases List.mem_cons.mp ht with
        | inl h => rw [h]; exact sqliteLt_notlt_of_notlt hmx2 hgem
        | inr h => exact hall t h

theorem sqlMaxText_max (l : List String) (hne : l ≠ []) :
    ∃ m, sqlMaxText l = some m ∧ m ∈ l ∧ ∀ t ∈ l, sqliteLt m t = false := by
  cases l with
  | nil => exact absurd rfl hne
  | cons x xs =>
    obtain ⟨m2, heq, hmem, -, hall⟩ := sqlMaxText_go xs x
    refine ⟨m2, ?_, ?_, ?_⟩
    · simpa [sqlMaxText, List.foldl_cons] using heq
    · cases hmem with
      | inl h => simp [h]
      | inr h => simp [h]
    · intro t ht
      cases List.mem_cons.mp ht with
      | inl h =>
        rw [h]
        obtain ⟨m3, heq2, -, hgex2, -⟩ := sqlMaxText_go xs x
        rw [heq] at heq2
        cases heq2
        exact hgex2
      | inr h => exact hall t h

theorem queryLatestAssignedIP_eq (devices : List Device) :
    queryLatestAssignedIP devices
      = sqlMaxText ((devices.filter (fun d => d.revokedAt == none)).map
          (fun d => d.assignedIP)) := by
  unfold queryLatestAssignedIP sqlMaxText
  rw [List.foldl_map]

set_option maxRecDepth 40000 in
/-- Claim C1, counterexample.  First input: non-revoked devices at 10.0.0.2 and
10.0.0.10 — the numerically greatest is 10.0.0.10, so the claim demands
10.0.0.11, but the TEXT-ordered query picks the string maximum "10.0.0.2"
(the digit 2 sorts above the digit 1) and the allocator returns 10.0.0.3.
Second input: no device rows, one configured live peer at 10.0.0.5, base
10.0.0.1 — the claim demands the peer-scan fallback (10.0.0.6) but the code
goes straight to the base address and returns 10.0.0.2. -/
theorem c1_counterexample :
    getNextIPNetAtomic [c1dev "10.0.0.2", c1dev "10.0.0.10"] []
        (ipOfOctets 10 0 0 1)
      ≠ specNextIPNet [c1dev "10.0.0.2", c1dev "10.0.0.10"] []
        (ipOfOctets 10 0 0 1)
    ∧ getNextIPNetAtomic [] [ipOfOctets 10 0 0 5] (ipOfOctets 10 0 0 1)
      ≠ specNextIPNet [] [ipOfOctets 10 0 0 5] (ipOfOctets 10 0 0 1)
    ∧ (getNextIPNetAtomic [c1dev "10.0.0.2", c1dev "10.0.0.10"] []
        (ipOfOctets 10 0 0 1)).ip = ipOfOctets 10 0 0 3
    ∧ (specNextIPNet [c1dev "10.0.0.2", c1dev "10.0.0.10"] []
        (ipOfOctets 10 0 0 1)).ip = ipOfOctets 10 0 0 11
    ∧ (getNextIPNetAtomic [] [ipOfOctets 10 0 0 5] (ipOfOctets 10 0 0 1)).ip
        = ipOfOctets 10 0 0 2 := by
  refine ⟨by decide, by decide, by decide, by decide, by decide⟩

/-- Claim C1, amended: the allocator always returns a /32 mask; when no
non-revoked device row exists it increments the interface base address
directly (no peer scan); otherwise it takes the SQLite-BINARY greatest
`assigned_ip` string among non-revoked rows, increments its parsed value when
it parses, and only falls back to the live peer scan when that stored string
does not parse as an address. -/
theorem c1_amended_allocator (devices : List Device) (peers : List Nat)
    (base : Nat) :
    (getNextIPNetAtomic devices peers base).mask = (255, 255, 255, 255)
    ∧ (devices.filter (fun d => d.revokedAt == none) = [] →
        getNextIPNetAtomic devices peers base
          = { ip := nextIP base 1, mask := (255, 255, 255, 255) })
    ∧ (∀ s, s ∈ (devices.filter (fun d => d.revokedAt == none)).map
          (fun d => d.assignedIP) →
        (∀ t ∈ (devices.filter (fun d => d.revokedAt == none)).map
          (fun d => d.assignedIP), sqliteLt s t = false) →
        (∀ ip, parseIP s = some ip →
          getNextIPNetAtomic devices peers base
            = { ip := nextIP ip 1, mask := (255, 255, 255, 255) })
        ∧ (parseIP s = none →
          getNextIPNetAtomic devices peers base
            = { ip := nextIP (getLatestUsedIP peers base) 1
                mask := (255, 255, 255, 255) })) := by
  refine ⟨rfl, ?_, ?_⟩
  · intro hempty
    have hq : queryLatestAssignedIP devices = none := by
      rw [queryLatestAssignedIP_eq, hempty]
      rfl
    unfold getNextIPNetAtomic
    rw [hq]
  · intro s hmem hmax
    have hq : queryLatestAssignedIP devices = some s := by
      rw [queryLatestAssignedIP_eq]
      obtain ⟨m, hm, hmmem, hmall⟩ :=
        sqlMaxText_max ((devices.filter (fun d => d.revokedAt == none)).map
          (fun d => d.assignedIP)) (by intro h; rw [h] at hmem; cases hmem)
      have : m = s := sqliteLt_antisymm (hmall s hmem) (hmax m hmmem)
      rw [hm, this]
    constructor
    · intro ip hip
      simp only [getNextIPNetAtomic, hq, hip]
    · intro hip
      simp only [getNextIPNetAtomic, hq, hip]

set_option maxRecDepth 40000 in
/-- Witness for the amended claim C1 at concrete inputs: a single non-revoked
device at 10.0.0.7 yields 10.0.0.8, and an empty ledger yields base + 1. -/
theorem c1_amended_allocator_witness :
    getNextIPNetAtomic [c1dev "10.0.0.7"] [] (ipOfOctets 10 0 0 1)
      = { ip := ipOfOctets 10 0 0 8, mask := (255, 255, 255, 255) }
    ∧ getNextIPNetAtomic [] [] (ipOfOctets 10 0 0 1)
      = { ip := ipOfOctets 10 0 0 2, mask := (255, 255, 255, 255) } := by
  constructor
  · have h := ((c1_amended_allocator [c1dev "10.0.0.7"] [] (ipOfOctets 10 0 0 1)).2.2
      "10.0.0.7" (by decide) (by decide)).1 (ipOfOctets 10 0 0 7) (by decide)
    rw [h]
    decide
  · have h := (c1_amended_allocator [] [] (ipOfOctets 10 0 0 1)).2.1 (by decide)
    rw [h]
    decide

set_option maxRecDepth 100000 in
/-- Claim C4: ten serialized `CreateDeviceWithNewKeys` allocations against an
empty pool with base address 10.0.0.1 — the best case the transactional
contract can deliver — do not produce ten distinct sequential addresses: the
ninth and tenth both receive 10.0.0.10, because the `ORDER BY assigned_ip
DESC` maximum is taken in TEXT order, under which "10.0.0.9" sorts above
"10.0.0.10". -/
theorem c4_double_allocation :
    (allocRun c4base 0 10).map (fun d => d.assignedIP)
      = ["10.0.0.2", "10.0.0.3", "10.0.0.4", "10.0.0.5", "10.0.0.6",
         "10.0.0.7", "10.0.0.8", "10.0.0.9", "10.0.0.10", "10.0.0.10"]
    ∧ ¬ ((allocRun c4base 0 10).map (fun d => d.assignedIP)).Nodup
    ∧ (allocRun c4base 0 10).all (fun d => d.revokedAt == none) = true := by
  refine ⟨by decide, by decide, by decide⟩

/-- Claim C3, counterexample.  First conjunct: for a Paused subscription whose
grace period ends exactly at `now`, the claimed `now ≥ gracePeriodEndsAt`
rule demands the "expired" denial, but `time.After` is strict and the code
returns the "paused" denial.  Second conjunct: two Paused states whose
remaining grace times differ by 100 days produce the identical denial — the
"paused" message carries no remaining-grace-time value. -/
theorem c3_counterexample :
    ¬ canProvisionClaimC3 [c3subPaused (100 * day)] [] 1 (100 * day)
        (canProvisionDevice [c3subPaused (100 * day)] [] 1 (100 * day))
    ∧ canProvisionDevice [c3subPaused (200 * day)] [] 1 (100 * day)
        = canProvisionDevice [c3subPaused (300 * day)] [] 1 (100 * day) := by
  constructor
  · intro h
    have h2 := (h.2 (c3subPaused (100 * day)) (by decide)).2
      ⟨rfl, 100 * day, rfl, le_refl _⟩
    exact absurd h2 (by decide)
  · decide

/-- Claim C3, amended: the gate evaluates, first match winning — no live
subscription: deny "no subscription"; Expired: deny "expired"; Paused with
non-null grace end and `now > gracePeriodEndsAt` (strict): deny "expired";
Paused otherwise: deny with the fixed "paused" message that carries no
remaining-grace time; `now > endsAt` (strict): deny "expired"; device count at
or above the limit: deny reporting the count and the limit; otherwise allow. -/
theorem c3_amended_gate (subs : List Subscription) (devices : List Device)
    (userID : Int) (now : Int) :
    canProvisionAmendedC3 subs devices userID now
      (canProvisionDevice subs devices userID now) := by
  constructor
  · intro h
    simp only [canProvisionDevice, h]
  · intro sub hsub
    simp only [canProvisionDevice, hsub]
    cases hst : sub.status with
    | expired =>
      dsimp only
      refine ⟨fun _ => rfl, ?_, ?_, ?_, ?_, ?_⟩ <;> (rintro ⟨h, -⟩) <;> simp at h
    | paused =>
      dsimp only
      refine ⟨?_, ?_, ?_, ?_, ?_, ?_⟩
      · rintro h; simp at h
      · rintro ⟨-, g, hg, hlt⟩
        rw [if_pos]
        exact (gracePassed_iff now sub.gracePeriodEndsAt).mpr ⟨g, hg, hlt⟩
      · rintro ⟨-, hn⟩
        rw [if_neg]
        intro hb
        exact hn ((gracePassed_iff now sub.gracePeriodEndsAt).mp hb)
      · rintro ⟨-, h, -⟩; simp at h
      · rintro ⟨-, h, -⟩; simp at h
      · rintro ⟨-, h, -⟩; simp at h
    | active =>
      dsimp only
      refine ⟨?_, ?_, ?_, ?_, ?_, ?_⟩
      · rintro h; simp at h
      · rintro ⟨h, -⟩; simp at h
      · rintro ⟨h, -⟩; simp at h
      · rintro ⟨-, -, hend⟩
        rw [if_pos]
        simp [timeAfter, hend]
      · rintro ⟨-, -, hnend, hlim⟩
        rw [if_neg, if_pos]
        · exact hlim
        · simp [timeAfter, hnend]
      · rintro ⟨-, -, hnend, hlim⟩
        rw [if_neg, if_neg]
        · omega
        · simp [timeAfter, hnend]
    | expiring =>
      dsimp only
      refine ⟨?_, ?_, ?_, ?_, ?_, ?_⟩
      · rintro h; simp at h
      · rintro ⟨h, -⟩; simp at h
      · rintro ⟨h, -⟩; simp at h
      · rintro ⟨-, -, hend⟩
        rw [if_pos]
        simp [timeAfter, hend]
      · rintro ⟨-, -, hnend, hlim⟩
        rw [if_neg, if_pos]
        · exact hlim
        · simp [timeAfter, hnend]
      · rintro ⟨-, -, hnend, hlim⟩
        rw [if_neg, if_neg]
        · omega
        · simp [timeAfter, hnend]

/-- Witness for the amended claim C3 at the spec's device-limit scenario: a
limit of 2 with 2 active devices denies with a message reporting 2 and 2. -/
theorem c3_amended_gate_witness :
    canProvisionDevice [c3subActive] c3devices 1 (50 * day)
      = { canProvision := false, reason := deviceLimitMsg 2 2 } := by
  have h := ((c3_amended_gate [c3subActive] c3devices 1 (50 * day)).2
    c3subActive (by decide)).2.2.2.2.1 ⟨by decide, by decide, by decide, by decide⟩
  rw [h]
  decide

/-- Claim C6: a remote create whose decoded response is missing (empty) any of
assigned_ip, server_public_key, endpoint, or dns fails with the
missing-required-fields ValidationError, and the devices table is unchanged —
the insert is never reached. -/
theorem c6_validation_no_insert (devices : List Device) (pubKey : String)
    (userID subID : Int) (name : String) (resp : CreateResponse) (now : Int)
    (hnew : getDeviceByPeerPublicKey devices pubKey = none)
    (hmiss : resp.assignedIP = "" ∨ resp.serverPublicKey = ""
      ∨ resp.endpoint = "" ∨ resp.dns = "") :
    sshCreateDeviceWithNewKeys devices pubKey userID subID name resp now
      = Except.error ProvisionError.invalidResponseMissingFields
    ∧ devicesAfter devices
        (sshCreateDeviceWithNewKeys devices pubKey userID subID name resp now)
      = devices := by
  have hcond : (resp.assignedIP == "" || resp.serverPublicKey == ""
      || resp.endpoint == "" || resp.dns == "") = true := by
    rcases hmiss with h | h | h | h <;> simp [h]
  have hmain : sshCreateDeviceWithNewKeys devices pubKey userID subID name resp now
      = Except.error ProvisionError.invalidResponseMissingFields := by
    unfold sshCreateDeviceWithNewKeys
    rw [hnew]
    simp [hcond]
  exact ⟨hmain, by rw [hmain]; rfl⟩

/-- Witness for claim C6 at the spec's scenario: a response with an empty dns
list against an empty ledger yields the ValidationError and no device row. -/
theorem c6_validation_no_insert_witness :
    sshCreateDeviceWithNewKeys [] "PK" 1 1 "dev"
        { assignedIP := "10.0.0.2", serverPublicKey := "SPK"
          endpoint := "203.0.113.1:51820", dns := "" } 0
      = Except.error ProvisionError.invalidResponseMissingFields
    ∧ devicesAfter []
        (sshCreateDeviceWithNewKeys [] "PK" 1 1 "dev"
          { assignedIP := "10.0.0.2", serverPublicKey := "SPK"
            endpoint := "203.0.113.1:51820", dns := "" } 0)
      = [] :=
  c6_validation_no_insert [] "PK" 1 1 "dev"
    { assignedIP := "10.0.0.2", serverPublicKey := "SPK"
      endpoint := "203.0.113.1:51820", dns := "" } 0 rfl (by right; right; right; rfl)

theorem getDeviceByPeerPublicKey_append_self (devices : List Device)
    (dev : Device) (k : String)
    (hnone : getDeviceByPeerPublicKey devices k = none)
    (hk : dev.peerPublicKey = k) :
    getDeviceByPeerPublicKey (devices ++ [dev]) k = some dev := by
  unfold getDeviceByPeerPublicKey at hnone ⊢
  induction devices with
  | nil => simp [List.find?, hk]
  | cons x xs ih =>
    rw [List.cons_append]
    simp only [List.find?_cons] at hnone ⊢
    cases hx : x.peerPublicKey == k with
    | true => simp [hx] at hnone
    | false =>
      simp only [hx] at hnone ⊢
      exact ih hnone

/-- Claim C7: with the duplicate-key check passing, the local create with a
failing post-commit interface mutation still returns success carrying the
committed row, behaves exactly as the non-failing run, and the inserted device
remains retrievable by its public key afterward. -/
theorem c7_partial_failure_success (devices : List Device) (peers : List Nat)
    (base : Nat) (pubKey : String) (userID subID : Int) (name : String)
    (now : Int)
    (hnone : getDeviceByPeerPublicKey devices pubKey = none) :
    localCreateDeviceWithNewKeys devices peers base pubKey userID subID name
        true now
      = Except.ok
          (devices ++ [mkInsertedDevice userID subID name pubKey
            (ipToString (getNextIPNetAtomic devices peers base).ip) now],
           ipToString (getNextIPNetAtomic devices peers base).ip)
    ∧ getDeviceByPeerPublicKey
        (devices ++ [mkInsertedDevice userID subID name pubKey
          (ipToString (getNextIPNetAtomic devices peers base).ip) now]) pubKey
      = some (mkInsertedDevice userID subID name pubKey
          (ipToString (getNextIPNetAtomic devices peers base).ip) now)
    ∧ localCreateDeviceWithNewKeys devices peers base pubKey userID subID name
        true now
      = localCreateDeviceWithNewKeys devices peers base pubKey userID subID name
        false now := by
  have hfound := getDeviceByPeerPublicKey_append_self devices
    (mkInsertedDevice userID subID name pubKey
      (ipToString (getNextIPNetAtomic devices peers base).ip) now) pubKey hnone rfl
  refine ⟨?_, hfound, ?_⟩
  · unfold localCreateDeviceWithNewKeys
    rw [hnone]
    simp only [hfound]
  · unfold localCreateDeviceWithNewKeys
    rw [hnone]

/-- Witness for claim C7 at a concrete input: empty ledger, base 10.0.0.1,
failing interface mutation — the call succeeds and the row at 10.0.0.2 is
retrievable by the key "PK". -/
theorem c7_partial_failure_success_witness :
    localCreateDeviceWithNewKeys [] [] (ipOfOctets 10 0 0 1) "PK" 1 1 "dev"
        true 0
      = Except.ok ([mkInsertedDevice 1 1 "dev" "PK" "10.0.0.2" 0], "10.0.0.2")
    ∧ getDeviceByPeerPublicKey [mkInsertedDevice 1 1 "dev" "PK" "10.0.0.2" 0] "PK"
      = some (mkInsertedDevice 1 1 "dev" "PK" "10.0.0.2" 0) := by
  have h := c7_partial_failure_success [] [] (ipOfOctets 10 0 0 1) "PK" 1 1
    "dev" 0 rfl
  constructor
  · exact h.1.trans (congrArg Except.ok (by decide))
  · decide

end WgBot
